import Mathlib

/-!
Verification of the book-review service: the review lifecycle
(create / update / delete), the rating aggregator that maintains the
denormalized `averageRating` / `totalReviews` fields on each book, the
one-review-per-(book, user) uniqueness guard, and the HTTP-level
unmatched-route handler and rate limiter configured in `src/app.js`.

The controllers and Mongoose models of the repository are not shipped
under `src/` (only `src/app.js` and the README with the schema
declarations are); the coordinator, aggregator and guard below are
therefore modelled from the specification, as flagged in each doc
comment.  Ratings are integers, averages are exact rationals (`Rat`),
and the persistence layer is a pure in-memory record.
-/

namespace BookReview

/-- A book record.  `averageRating` and `totalReviews` are the
denormalized aggregate fields derived from the reviews. -/
structure Book where
  title : String
  author : String
  genre : String
  publicationYear : Option Int
  description : Option String
  averageRating : Rat
  totalReviews : Nat
  deriving Repr, DecidableEq

/-- A review row: references exactly one book and one user, carries an
integer rating and an optional comment. -/
structure Review where
  id : Nat
  book : Nat
  user : Nat
  rating : Nat
  comment : Option String
  deriving Repr, DecidableEq

/-- The persistent state: books keyed by identifier, the review rows,
and the application log (used to report aggregate-refresh failures). -/
structure DB where
  books : List (Nat × Book)
  reviews : List Review
  log : List String
  deriving Repr, DecidableEq

/-- The error taxonomy of the review lifecycle. -/
inductive ReviewError where
  | NotFound
  | ValidationError
  | Forbidden
  | DuplicateReview
  deriving Repr, DecidableEq

/-- Look a book up by identifier. -/
def findBook (db : DB) (id : Nat) : Option Book :=
  (db.books.find? fun p => p.1 = id).map fun p => p.2

/-- Look a review up by identifier. -/
def findReview (db : DB) (id : Nat) : Option Review :=
  db.reviews.find? fun r => r.id = id

/-- All ratings of the reviews referencing the given book. -/
def ratingsFor (db : DB) (bookId : Nat) : List Nat :=
  (db.reviews.filter fun r => r.book = bookId).map fun r => r.rating

/-- Modelled from the spec: the Rating Aggregator's rounding (the
aggregator source is not under src/).  The arithmetic mean rounded
half-up to one decimal place, computed in integer arithmetic:
floor((10*sum/count) + 1/2) = (20*sum + count) / (2*count) tenths. -/
def aggAverage (ratings : List Nat) : Rat :=
  if ratings.length = 0 then 0
  else (((20 * ratings.sum + ratings.length) / (2 * ratings.length) : Nat) : Rat) / 10

/-- The spec's own words for the aggregate value: "compute arithmetic
mean, round to 1 decimal (round-half-up)"; 0 when no reviews exist.
Stated independently of `aggAverage` so the two can be compared. -/
def specMeanRounded (ratings : List Nat) : Rat :=
  if ratings.length = 0 then 0
  else ((⌊(ratings.sum : Rat) / (ratings.length : Rat) * 10 + 1 / 2⌋ : Int) : Rat) / 10

/-- Modelled from the spec: the Rating Aggregator (not under src/).
Given a book identifier, recompute and persist `averageRating` and
`totalReviews` from the current full set of reviews referencing that
book; a no-op when the book does not exist. -/
def recalcRating (db : DB) (bookId : Nat) : DB :=
  { db with
    books := db.books.map fun p =>
      if p.1 = bookId then
        (p.1, { p.2 with
                averageRating := aggAverage (ratingsFor db bookId)
                totalReviews := (ratingsFor db bookId).length })
      else p }

/-- Log line reported when the aggregate-refresh write fails. -/
def aggFailMsg (bookId : Nat) : String :=
  "aggregate refresh failed for book " ++ toString bookId

/-- Modelled from the spec: running the Aggregator after a review
write.  `aggOk` says whether the aggregate persistence write succeeds;
on failure the stale aggregate is only logged, never rolled back. -/
def runAggregator (aggOk : Bool) (db : DB) (bookId : Nat) : DB :=
  if aggOk then recalcRating db bookId
  else { db with log := aggFailMsg bookId :: db.log }

/-- Fresh identifier for a newly inserted review. -/
def freshId (db : DB) : Nat :=
  db.reviews.foldr (fun r m => max r.id m) 0 + 1

/-- Modelled from the spec: Coordinator Create (controller not under
src/).  Validates book existence (else `NotFound`), rating range 1-5
(else `ValidationError`), uniqueness of the (book, user) pair (else
`DuplicateReview`); inserts the review and triggers the Aggregator. -/
def createReview (aggOk : Bool) (db : DB) (bookId userId rating : Nat)
    (comment : Option String) : Except ReviewError DB :=
  match findBook db bookId with
  | none => Except.error ReviewError.NotFound
  | some _ =>
    if rating < 1 ∨ 5 < rating then Except.error ReviewError.ValidationError
    else if db.reviews.any fun r => decide (r.book = bookId ∧ r.user = userId) then
      Except.error ReviewError.DuplicateReview
    else
      let newReview : Review :=
        { id := freshId db, book := bookId, user := userId
          rating := rating, comment := comment }
      Except.ok (runAggregator aggOk { db with reviews := newReview :: db.reviews } bookId)

/-- Modelled from the spec: Coordinator Update (controller not under
src/).  Validates review existence (else `NotFound`) and ownership
(else `Forbidden`); persists the new rating/comment and triggers the
Aggregator for the review's book. -/
def updateReview (aggOk : Bool) (db : DB) (reviewId userId : Nat)
    (newRating : Option Nat) (newComment : Option String) : Except ReviewError DB :=
  match findReview db reviewId with
  | none => Except.error ReviewError.NotFound
  | some r =>
    if r.user ≠ userId then Except.error ReviewError.Forbidden
    else
      let r2 : Review :=
        { r with
          rating := newRating.getD r.rating
          comment := match newComment with | some c => some c | none => r.comment }
      Except.ok (runAggregator aggOk
        { db with reviews := db.reviews.map fun x => if x.id = reviewId then r2 else x }
        r.book)

/-- Modelled from the spec: Coordinator Delete (controller not under
src/).  Same ownership check as Update; deletes the review row and
triggers the Aggregator for the affected book. -/
def deleteReview (aggOk : Bool) (db : DB) (reviewId userId : Nat) : Except ReviewError DB :=
  match findReview db reviewId with
  | none => Except.error ReviewError.NotFound
  | some r =>
    if r.user ≠ userId then Except.error ReviewError.Forbidden
    else
      Except.ok (runAggregator aggOk
        { db with reviews := db.reviews.filter fun x => decide (x.id ≠ reviewId) }
        r.book)

/-- The aggregate-consistency invariant at one book: its denormalized
fields agree with the spec's mean-rounded-half-up and count of the
reviews referencing it. -/
def aggConsistentAt (db : DB) (bookId : Nat) : Prop :=
  ∀ bk, findBook db bookId = some bk →
    bk.averageRating = specMeanRounded (ratingsFor db bookId) ∧
    bk.totalReviews = (ratingsFor db bookId).length

/-- The aggregator's integer rounding agrees with the spec's
round-half-up of the arithmetic mean to one decimal place. -/
lemma aggAverage_eq_specMeanRounded (l : List Nat) : aggAverage l = specMeanRounded l := by
  unfold aggAverage specMeanRounded
  rcases Nat.eq_zero_or_pos l.length with h | h
  · simp [h]
  · have hne : l.length ≠ 0 := Nat.pos_iff_ne_zero.mp h
    rw [if_neg hne, if_neg hne]
    congr 1
    have hL : (l.length : Rat) ≠ 0 := Nat.cast_ne_zero.mpr hne
    have hx : (l.sum : Rat) / (l.length : Rat) * 10 + 1 / 2
        = ((20 * l.sum + l.length : Nat) : Rat) / ((2 * l.length : Nat) : Rat) := by
      field_simp
      ring
    rw [hx]
    rw [← Int.natCast_floor_eq_floor (by positivity)]
    rw [Nat.floor_div_eq_div]
    norm_cast

/-- `find?` over a key-preserving map of an association list. -/
lemma find?_map_keyPres (f : Nat × Book → Nat × Book) (hf : ∀ p, (f p).1 = p.1)
    (l : List (Nat × Book)) (id : Nat) :
    (l.map f).find? (fun p => decide (p.1 = id))
      = (l.find? (fun p => decide (p.1 = id))).map f := by
  induction l with
  | nil => rfl
  | cons a l ih =>
    by_cases h : a.1 = id
    · rw [List.map_cons, List.find?_cons_of_pos _ (by simp [hf, h]),
        List.find?_cons_of_pos _ (by simp [h])]
      rfl
    · rw [List.map_cons, List.find?_cons_of_neg _ (by simp [hf, h]),
        List.find?_cons_of_neg _ (by simp [h])]
      exact ih

/-- Looking up the recomputed book after an aggregate refresh. -/
lemma findBook_recalc_self (db : DB) (b : Nat) :
    findBook (recalcRating db b) b = (findBook db b).map fun bk =>
      { bk with averageRating := aggAverage (ratingsFor db b)
                totalReviews := (ratingsFor db b).length } := by
  unfold findBook recalcRating
  rw [find?_map_keyPres _ (fun p => by by_cases h : p.1 = b <;> simp [h])]
  cases hfind : db.books.find? (fun p => decide (p.1 = b)) with
  | none => rfl
  | some p =>
    have hp : p.1 = b := by simpa using List.find?_some hfind
    simp [hp]

/-- An aggregate refresh of one book leaves every other book's record
untouched. -/
lemma findBook_recalc_other (db : DB) (b id : Nat) (h : id ≠ b) :
    findBook (recalcRating db b) id = findBook db id := by
  unfold findBook recalcRating
  rw [find?_map_keyPres _ (fun p => by by_cases hp : p.1 = b <;> simp [hp])]
  cases hfind : db.books.find? (fun p => decide (p.1 = id)) with
  | none => rfl
  | some p =>
    have hp : p.1 = id := by simpa using List.find?_some hfind
    simp [hp, h]

/-- The aggregate refresh does not change the review rows. -/
lemma ratingsFor_recalc (db : DB) (b c : Nat) :
    ratingsFor (recalcRating db b) c = ratingsFor db c := rfl

/-- After a recompute of book `b`, the invariant holds at `b`. -/
lemma aggConsistentAt_recalc (db : DB) (b : Nat) :
    aggConsistentAt (recalcRating db b) b := by
  intro bk hbk
  rw [findBook_recalc_self] at hbk
  cases hfb : findBook db b with
  | none => rw [hfb] at hbk; simp at hbk
  | some bk0 =>
    rw [hfb] at hbk
    have hbk2 := Option.some.inj hbk
    subst hbk2
    rw [ratingsFor_recalc]
    exact ⟨aggAverage_eq_specMeanRounded _, rfl⟩

/-- C1: for every book, after any successful create, update, or delete
of a review referencing it, the book's `averageRating` equals the
arithmetic mean of all ratings of reviews referencing that book,
rounded to one decimal place round-half-up (or 0 when no reviews
exist), and the book's `totalReviews` equals the count of those
reviews. -/
theorem create_update_delete_restore_aggregate (db db' : DB) :
    (∀ b u rat c, createReview true db b u rat c = Except.ok db' → aggConsistentAt db' b) ∧
    (∀ rid u nr nc r, findReview db rid = some r →
      updateReview true db rid u nr nc = Except.ok db' → aggConsistentAt db' r.book) ∧
    (∀ rid u r, findReview db rid = some r →
      deleteReview true db rid u = Except.ok db' → aggConsistentAt db' r.book) := by
  refine ⟨?_, ?_, ?_⟩
  · intro b u rat c h
    unfold createReview at h
    split at h
    · simp at h
    · split at h
      · simp at h
      · split at h
        · simp at h
        · have h2 := Except.ok.inj h
          subst h2
          exact aggConsistentAt_recalc _ _
  · intro rid u nr nc r hr h
    unfold updateReview at h
    split at h
    next heq => simp at h
    next r0 heq =>
      have hr0 : r0 = r := by rw [heq] at hr; exact Option.some.inj hr
      subst hr0
      split at h
      · simp at h
      · have h2 := Except.ok.inj h
        subst h2
        exact aggConsistentAt_recalc _ _
  · intro rid u r hr h
    unfold deleteReview at h
    split at h
    next heq => simp at h
    next r0 heq =>
      have hr0 : r0 = r := by rw [heq] at hr; exact Option.some.inj hr
      subst hr0
      split at h
      · simp at h
      · have h2 := Except.ok.inj h
        subst h2
        exact aggConsistentAt_recalc _ _

/-- A sample book record with zeroed aggregates. -/
def bookZero : Book :=
  { title := "X", author := "A", genre := "G", publicationYear := none
    description := none, averageRating := 0, totalReviews := 0 }

/-- A one-book, no-review database. -/
def dbOneBook : DB := { books := [(1, bookZero)], reviews := [], log := [] }

/-- The database produced by creating a rating-5 review by user 7 on
book 1 of `dbOneBook`. -/
def dbAfterFirstCreate : DB :=
  recalcRating
    { dbOneBook with
      reviews := [{ id := 1, book := 1, user := 7, rating := 5, comment := none }] }
    1

theorem create_update_delete_restore_aggregate_witness :
    aggConsistentAt dbAfterFirstCreate 1 :=
  (create_update_delete_restore_aggregate dbOneBook dbAfterFirstCreate).1 1 7 5 none rfl

/-- C2: creating a review for a (book, user) pair that already has one
fails with `DuplicateReview` (the error return leaves the database --
hence the second review and the book's aggregates -- unchanged). -/
theorem createReview_duplicate_rejected (aggOk : Bool) (db : DB) (b u rat : Nat)
    (c : Option String) (r0 : Review)
    (hb : ∃ bk, findBook db b = some bk)
    (hlo : 1 ≤ rat) (hhi : rat ≤ 5)
    (hmem : r0 ∈ db.reviews) (hbook : r0.book = b) (huser : r0.user = u) :
    createReview aggOk db b u rat c = Except.error ReviewError.DuplicateReview := by
  obtain ⟨bk, hbk⟩ := hb
  have hany : (db.reviews.any fun r => decide (r.book = b ∧ r.user = u)) = true :=
    List.any_eq_true.mpr ⟨r0, hmem, by simp [hbook, huser]⟩
  unfold createReview
  simp only [hbk]
  rw [if_neg (by omega : ¬(rat < 1 ∨ 5 < rat)), if_pos hany]

/-- A one-book database already holding a rating-5 review by user 7. -/
def dbDup : DB :=
  { books := [(1, bookZero)]
    reviews := [{ id := 1, book := 1, user := 7, rating := 5, comment := none }]
    log := [] }

theorem createReview_duplicate_rejected_witness :
    createReview true dbDup 1 7 4 none = Except.error ReviewError.DuplicateReview :=
  createReview_duplicate_rejected true dbDup 1 7 4 none
    { id := 1, book := 1, user := 7, rating := 5, comment := none }
    ⟨bookZero, rfl⟩ (by decide) (by decide) (List.Mem.head _) rfl rfl

/-- C4: a Create call on a nonexistent book fails with `NotFound`; a
Create call with a rating outside 1-5 fails with `ValidationError`; in
both cases the error return means no review is inserted. -/
theorem createReview_notFound_validation (aggOk : Bool) (db : DB) (b u rat : Nat)
    (c : Option String) :
    (findBook db b = none →
      createReview aggOk db b u rat c = Except.error ReviewError.NotFound) ∧
    (∀ bk, findBook db b = some bk → (rat < 1 ∨ 5 < rat) →
      createReview aggOk db b u rat c = Except.error ReviewError.ValidationError) := by
  constructor
  · intro h
    unfold createReview
    simp only [h]
  · intro bk h hr
    unfold createReview
    simp only [h]
    rw [if_pos hr]

theorem createReview_notFound_validation_witness :
    createReview true dbOneBook 9 7 3 none = Except.error ReviewError.NotFound ∧
    createReview true dbOneBook 1 7 9 none = Except.error ReviewError.ValidationError :=
  ⟨(createReview_notFound_validation true dbOneBook 9 7 3 none).1 rfl,
   (createReview_notFound_validation true dbOneBook 1 7 9 none).2 bookZero rfl
     (by decide)⟩

/-- C5: updating or deleting an existing review as a user other than
its owner fails with `Forbidden`; the error return means the review and
the book aggregates are untouched and no recompute runs. -/
theorem update_delete_forbidden (aggOk : Bool) (db : DB) (rid u : Nat)
    (nr : Option Nat) (nc : Option String) (r : Review)
    (hr : findReview db rid = some r) (hown : r.user ≠ u) :
    updateReview aggOk db rid u nr nc = Except.error ReviewError.Forbidden ∧
    deleteReview aggOk db rid u = Except.error ReviewError.Forbidden := by
  constructor
  · unfold updateReview
    simp only [hr]
    rw [if_pos hown]
  · unfold deleteReview
    simp only [hr]
    rw [if_pos hown]

theorem update_delete_forbidden_witness :
    updateReview true dbDup 1 8 (some 3) none = Except.error ReviewError.Forbidden ∧
    deleteReview true dbDup 1 8 = Except.error ReviewError.Forbidden :=
  update_delete_forbidden true dbDup 1 8 (some 3) none
    { id := 1, book := 1, user := 7, rating := 5, comment := none } rfl (by decide)

/-- A successful aggregate persistence write is exactly a recompute. -/
lemma runAggregator_true (db : DB) (b : Nat) :
    runAggregator true db b = recalcRating db b := rfl

/-- The non-aggregate fields of a book survive an aggregate refresh. -/
lemma findBook_recalc_fields (db : DB) (b : Nat) (bk bk2 : Book)
    (h1 : findBook db b = some bk)
    (h2 : findBook (recalcRating db b) b = some bk2) :
    bk2.title = bk.title ∧ bk2.author = bk.author ∧ bk2.genre = bk.genre ∧
    bk2.publicationYear = bk.publicationYear ∧ bk2.description = bk.description := by
  rw [findBook_recalc_self, h1] at h2
  have h3 := Option.some.inj h2
  subst h3
  exact ⟨rfl, rfl, rfl, rfl, rfl⟩

/-- C3: deleting the only review of a book resets that book's
`averageRating` to 0 and `totalReviews` to 0. -/
theorem delete_last_review_resets (db : DB) (rid u : Nat) (r : Review) (db' : DB)
    (bk : Book)
    (hr : findReview db rid = some r) (hu : r.user = u)
    (honly : (db.reviews.filter fun x => decide (x.book = r.book)) = [r])
    (hdel : deleteReview true db rid u = Except.ok db')
    (hbk : findBook db' r.book = some bk) :
    bk.averageRating = 0 ∧ bk.totalReviews = 0 := by
  unfold deleteReview at hdel
  split at hdel
  next heq => simp at hdel
  next r0 heq =>
    have hr0 : r0 = r := by rw [heq] at hr; exact Option.some.inj hr
    subst hr0
    split at hdel
    · simp at hdel
    · have h2 := Except.ok.inj hdel
      subst h2
      have hid : r0.id = rid := by simpa using List.find?_some heq
      have hempty :
          ratingsFor { db with reviews := db.reviews.filter fun x => decide (x.id ≠ rid) }
            r0.book = [] := by
        unfold ratingsFor
        have hnil :
            (((db.reviews.filter fun x => decide (x.id ≠ rid)).filter
              fun x => decide (x.book = r0.book)) : List Review) = [] := by
          rw [List.filter_eq_nil_iff]
          intro x hx hxb
          have hxmem := (List.mem_filter.mp hx).1
          have hxid : x.id ≠ rid := by simpa using (List.mem_filter.mp hx).2
          have hxb2 : x.book = r0.book := by simpa using hxb
          have hxr : x = r0 := by
            have hx2 : x ∈ db.reviews.filter fun y => decide (y.book = r0.book) :=
              List.mem_filter.mpr ⟨hxmem, by simpa using hxb2⟩
            rw [honly] at hx2
            simpa using hx2
          exact hxid (hxr ▸ hid)
        rw [hnil]
        rfl
      rw [runAggregator_true, findBook_recalc_self] at hbk
      cases hfb :
          findBook { db with reviews := db.reviews.filter fun x => decide (x.id ≠ rid) }
            r0.book with
      | none => rw [hfb] at hbk; simp at hbk
      | some bk0 =>
        rw [hfb] at hbk
        have h3 := Option.some.inj hbk
        subst h3
        rw [hempty]
        exact ⟨rfl, rfl⟩

/-- A one-book database whose single review has rating 2, aggregates
already consistent (`averageRating = 2.0`, `totalReviews = 1`). -/
def dbC3 : DB :=
  { books := [(1, { bookZero with averageRating := 2, totalReviews := 1 })]
    reviews := [{ id := 1, book := 1, user := 7, rating := 2, comment := none }]
    log := [] }

/-- The database after user 7 deletes review 1 of `dbC3`. -/
def dbC3res : DB := recalcRating { dbC3 with reviews := [] } 1

theorem delete_last_review_resets_witness :
    bookZero.averageRating = 0 ∧ bookZero.totalReviews = 0 :=
  delete_last_review_resets dbC3 1 7
    { id := 1, book := 1, user := 7, rating := 2, comment := none }
    dbC3res bookZero rfl rfl rfl rfl rfl

/-- C6: a successful update of a review changes at most the
`averageRating` / `totalReviews` aggregate fields of the review's own
book: every other book's record is untouched, and the other fields of
the review's own book are untouched. -/
theorem update_frame (db : DB) (rid u : Nat) (nr : Option Nat) (nc : Option String)
    (r : Review) (db' : DB)
    (hr : findReview db rid = some r)
    (hup : updateReview true db rid u nr nc = Except.ok db') :
    (∀ b2, b2 ≠ r.book → findBook db' b2 = findBook db b2) ∧
    (∀ bk bk2, findBook db r.book = some bk → findBook db' r.book = some bk2 →
      bk2.title = bk.title ∧ bk2.author = bk.author ∧ bk2.genre = bk.genre ∧
      bk2.publicationYear = bk.publicationYear ∧ bk2.description = bk.description) := by
  unfold updateReview at hup
  split at hup
  next heq => simp at hup
  next r0 heq =>
    have hr0 : r0 = r := by rw [heq] at hr; exact Option.some.inj hr
    subst hr0
    split at hup
    · simp at hup
    · have h2 := Except.ok.inj hup
      subst h2
      constructor
      · intro b2 hb2
        exact findBook_recalc_other _ _ _ hb2
      · intro bk bk2 hbk hbk2
        rw [runAggregator_true] at hbk2
        refine findBook_recalc_fields _ _ bk bk2 ?_ hbk2
        exact hbk

/-- A two-book database with one rating-5 review by user 7 on book 1. -/
def dbC6 : DB :=
  { books := [(1, bookZero), (2, { bookZero with title := "Y" })]
    reviews := [{ id := 1, book := 1, user := 7, rating := 5, comment := none }]
    log := [] }

/-- The database after user 7 changes the rating of review 1 to 4. -/
def dbC6res : DB :=
  recalcRating
    { dbC6 with reviews := [{ id := 1, book := 1, user := 7, rating := 4, comment := none }] }
    1

/-- Book 1's record in `dbC6res`. -/
def bookC6res : Book :=
  { bookZero with averageRating := aggAverage [4], totalReviews := 1 }

theorem update_frame_witness :
    findBook dbC6res 2 = findBook dbC6 2 ∧ bookC6res.title = bookZero.title :=
  ⟨(update_frame dbC6 1 7 (some 4) none
      { id := 1, book := 1, user := 7, rating := 5, comment := none } dbC6res rfl rfl).1
      2 (by decide),
   ((update_frame dbC6 1 7 (some 4) none
      { id := 1, book := 1, user := 7, rating := 5, comment := none } dbC6res rfl rfl).2
      bookZero bookC6res rfl rfl).1⟩

/-- Book X with reviews rated 5 (user 1) and 3 (user 2), aggregates
not yet refreshed. -/
def dbC7 : DB :=
  { books := [(1, bookZero)]
    reviews := [{ id := 1, book := 1, user := 1, rating := 5, comment := none },
                { id := 2, book := 1, user := 2, rating := 3, comment := none }]
    log := [] }

/-- `dbC7` after user 3 adds a rating-4 review to book 1 (the review
insert followed by the aggregate refresh). -/
def dbC7b : DB :=
  recalcRating
    { recalcRating dbC7 1 with
      reviews :=
        { id := 3, book := 1, user := 3, rating := 4, comment := none } :: dbC7.reviews }
    1

/-- C7: with ratings exactly [5, 3] the recomputed aggregate is
`averageRating = 4.0`, `totalReviews = 2`; after additionally creating
a rating-4 review it is `averageRating = 4.0`, `totalReviews = 3`. -/
theorem scenario_ratings_5_3_then_4 :
    ((findBook (recalcRating dbC7 1) 1).map fun bk => (bk.averageRating, bk.totalReviews))
      = some ((4 : Rat), 2) ∧
    createReview true (recalcRating dbC7 1) 1 3 4 none = Except.ok dbC7b ∧
    ((findBook dbC7b 1).map fun bk => (bk.averageRating, bk.totalReviews))
      = some ((4 : Rat), 3) := by
  have h53 : aggAverage [5, 3] = 4 := by
    unfold aggAverage
    norm_num
  have h453 : aggAverage [4, 5, 3] = 4 := by
    unfold aggAverage
    norm_num
  refine ⟨?_, rfl, ?_⟩
  · have h1 : findBook (recalcRating dbC7 1) 1
        = some { bookZero with averageRating := aggAverage [5, 3], totalReviews := 2 } :=
      rfl
    rw [h1]
    show some (aggAverage [5, 3], 2) = some ((4 : Rat), 2)
    rw [h53]
  · have h2 : findBook dbC7b 1
        = some { bookZero with averageRating := aggAverage [4, 5, 3], totalReviews := 3 } :=
      rfl
    rw [h2]
    show some (aggAverage [4, 5, 3], 3) = some ((4 : Rat), 3)
    rw [h453]

/-- C8: when the aggregate-refresh write fails (`aggOk = false`), the
triggering review write is not rolled back -- the review is still
created / updated / deleted, the operation still succeeds (it fails
with an error exactly when the normal run would), the book records are
left stale rather than touched, and the staleness is logged. -/
theorem aggregator_failure_no_rollback (db : DB) (b u rat rid : Nat)
    (c nc : Option String) (nr : Option Nat) :
    (∀ db', createReview false db b u rat c = Except.ok db' →
      db'.reviews = { id := freshId db, book := b, user := u, rating := rat,
                      comment := c } :: db.reviews ∧
      db'.books = db.books ∧ db'.log = aggFailMsg b :: db.log) ∧
    (∀ e, createReview false db b u rat c = Except.error e ↔
      createReview true db b u rat c = Except.error e) ∧
    (∀ r db', findReview db rid = some r →
      updateReview false db rid u nr nc = Except.ok db' →
      db'.reviews = (db.reviews.map fun x => if x.id = rid then
        { r with rating := nr.getD r.rating
                 comment := match nc with | some c2 => some c2 | none => r.comment }
        else x) ∧
      db'.books = db.books ∧ db'.log = aggFailMsg r.book :: db.log) ∧
    (∀ e, updateReview false db rid u nr nc = Except.error e ↔
      updateReview true db rid u nr nc = Except.error e) ∧
    (∀ r db', findReview db rid = some r →
      deleteReview false db rid u = Except.ok db' →
      db'.reviews = (db.reviews.filter fun x => decide (x.id ≠ rid)) ∧
      db'.books = db.books ∧ db'.log = aggFailMsg r.book :: db.log) ∧
    (∀ e, deleteReview false db rid u = Except.error e ↔
      deleteReview true db rid u = Except.error e) := by
  refine ⟨?_, ?_, ?_, ?_, ?_, ?_⟩
  · intro db' h
    unfold createReview at h
    split at h
    · simp at h
    · split at h
      · simp at h
      · split at h
        · simp at h
        · have h2 := Except.ok.inj h
          subst h2
          exact ⟨rfl, rfl, rfl⟩
  · intro e
    unfold createReview
    split
    · exact Iff.rfl
    · split
      · exact Iff.rfl
      · split
        · exact Iff.rfl
        · constructor <;> intro h <;> simp at h
  · intro r db' hr h
    unfold updateReview at h
    split at h
    next heq => simp at h
    next r0 heq =>
      have hr0 : r0 = r := by rw [heq] at hr; exact Option.some.inj hr
      subst hr0
      split at h
      · simp at h
      · have h2 := Except.ok.inj h
        subst h2
        exact ⟨rfl, rfl, rfl⟩
  · intro e
    unfold updateReview
    split
    · exact Iff.rfl
    · split
      · exact Iff.rfl
      · constructor <;> intro h <;> simp at h
  · intro r db' hr h
    unfold deleteReview at h
    split at h
    next heq => simp at h
    next r0 heq =>
      have hr0 : r0 = r := by rw [heq] at hr; exact Option.some.inj hr
      subst hr0
      split at h
      · simp at h
      · have h2 := Except.ok.inj h
        subst h2
        exact ⟨rfl, rfl, rfl⟩
  · intro e
    unfold deleteReview
    split
    · exact Iff.rfl
    · split
      · exact Iff.rfl
      · constructor <;> intro h <;> simp at h

/-- `dbOneBook` after a create whose aggregate-refresh write failed:
the review row is present, the book record is stale, the failure is
logged. -/
def dbC8res : DB :=
  { dbOneBook with
    reviews := [{ id := 1, book := 1, user := 7, rating := 5, comment := none }]
    log := [aggFailMsg 1] }

theorem aggregator_failure_no_rollback_witness :
    dbC8res.reviews
      = { id := 1, book := 1, user := 7, rating := 5, comment := none }
        :: dbOneBook.reviews ∧
    dbC8res.books = dbOneBook.books ∧
    dbC8res.log = aggFailMsg 1 :: dbOneBook.log :=
  (aggregator_failure_no_rollback dbOneBook 1 7 5 1 none none none).1 dbC8res rfl

/-- The error object of `src/utils/customError.js` as constructed in
`src/app.js`: a message and an HTTP status code. -/
structure CustomError where
  message : String
  statusCode : Nat
  deriving Repr, DecidableEq

/-- From src/app.js line 63: the message of the unmatched-route error,
built from the request's `originalUrl`. -/
def notFoundMessage (originalUrl : String) : String :=
  "Can" ++ String.singleton (Char.ofNat 39) ++ "t find " ++ originalUrl
    ++ " on this server!"

/-- From src/app.js lines 62-64: the `app.all` catch-all forwards a
404 `CustomError` for the requested URL to the error middleware. -/
def unmatchedRouteError (originalUrl : String) : CustomError :=
  { message := notFoundMessage originalUrl, statusCode := 404 }

/-- Modelled from the spec: `src/middleware/globalErrorHandler.js` is
not under src/; per the README's error-handling design it serializes a
`CustomError` into a response carrying that error's status code and
message. -/
def globalErrorHandler (e : CustomError) : Nat × String :=
  (e.statusCode, e.message)

/-- From src/app.js: route dispatch.  `routed = some resp` when some
registered route produced a response; otherwise the request falls
through to the `app.all` catch-all, whose error goes to the global
error handler. -/
def handleRequest (routed : Option (Nat × String)) (originalUrl : String) : Nat × String :=
  match routed with
  | some resp => resp
  | none => globalErrorHandler (unmatchedRouteError originalUrl)

/-- C9: a request whose path matches no registered route is answered
through the global error handler with status 404 and the message
built by `notFoundMessage` from the requested URL. -/
theorem unmatched_route_responds_404 (url : String) :
    handleRequest none url = (404, notFoundMessage url) := rfl

/-- From src/app.js line 35: the limiter window, 15 minutes in ms. -/
def windowMs : Nat := 15 * 60 * 1000

/-- From src/app.js line 34: the limiter maximum per window. -/
def maxRequests : Nat := 100

/-- From src/app.js line 36: the rejection message. -/
def limiterMessage : String :=
  "Too many requests from this IP, please try again after 15 minutes!"

/-- An incoming HTTP request: arrival time in ms, client IP, path. -/
structure Request where
  time : Nat
  ip : String
  path : String
  deriving Repr, DecidableEq

/-- Paths the `/api`-mounted limiter applies to. -/
def isApiPath (p : String) : Bool :=
  p == "/api" || List.isPrefixOf "/api/".data p.data

/-- The fixed window a timestamp falls into: windows are the
15-minute intervals delimited by the limiter's periodic counter
reset. -/
def windowOf (t : Nat) : Nat := t / windowMs

/-- The limiter counter for one IP in one window: how many earlier
limited requests from that IP fell into that window. -/
def hits (prior : List Request) (ip : String) (w : Nat) : Nat :=
  (prior.filter fun q => decide (q.ip = ip ∧ windowOf q.time = w)).length

/-- Modelled: the express-rate-limit fixed-window limiter as
configured in src/app.js lines 33-38 (the library itself is a
dependency, not repository code).  It keeps one counter per client IP
in a store whose entries all reset every `windowMs`; every limited
request increments its counter, and is served only while the counter
is below `maxRequests`, otherwise answered with `limiterMessage`.
Requests outside `/api` bypass the limiter. -/
def rateLimit (prior : List Request) : List Request → List (Request × Option String)
  | [] => []
  | q :: rest =>
    if isApiPath q.path then
      (q, if hits prior q.ip (windowOf q.time) < maxRequests then none
          else some limiterMessage) :: rateLimit (q :: prior) rest
    else (q, none) :: rateLimit prior rest

/-- Served (not rejected) `/api` requests of one IP in one fixed
window. -/
def servedCount (out : List (Request × Option String)) (ip : String) (w : Nat) : Nat :=
  (out.filter fun p =>
    decide (p.2 = none ∧ p.1.ip = ip ∧ isApiPath p.1.path = true
      ∧ windowOf p.1.time = w)).length

/-- Served `/api` requests of one IP inside the 15-minute span
starting at `t0` (a sliding window). -/
def servedInSpan (out : List (Request × Option String)) (ip : String) (t0 : Nat) : Nat :=
  (out.filter fun p =>
    decide (p.2 = none ∧ p.1.ip = ip ∧ isApiPath p.1.path = true
      ∧ t0 ≤ p.1.time ∧ p.1.time < t0 + windowMs)).length

/-- Prepending one request to the counter history. -/
lemma hits_cons (q : Request) (prior : List Request) (ip : String) (w : Nat) :
    hits (q :: prior) ip w
      = hits prior ip w + (if q.ip = ip ∧ windowOf q.time = w then 1 else 0) := by
  unfold hits
  rw [List.filter_cons]
  by_cases h : q.ip = ip ∧ windowOf q.time = w
  · simp [h]
  · simp [h]

/-- Prepending one decision to a limiter output trace. -/
lemma servedCount_cons (q : Request) (o : Option String)
    (out : List (Request × Option String)) (ip : String) (w : Nat) :
    servedCount ((q, o) :: out) ip w
      = servedCount out ip w
        + (if o = none ∧ q.ip = ip ∧ isApiPath q.path = true ∧ windowOf q.time = w
           then 1 else 0) := by
  unfold servedCount
  rw [List.filter_cons]
  by_cases h : o = none ∧ q.ip = ip ∧ isApiPath q.path = true ∧ windowOf q.time = w
  · simp [h.1, h.2.1, h.2.2.1, h.2.2.2, h]
  · simp [h]

/-- Core bound: the limiter never serves more than its remaining
budget for an (IP, fixed-window) pair. -/
lemma servedCount_rateLimit_le (ip : String) (w : Nat) (reqs : List Request) :
    ∀ prior, servedCount (rateLimit prior reqs) ip w ≤ maxRequests - hits prior ip w := by
  induction reqs with
  | nil => intro prior; simp [rateLimit, servedCount]
  | cons q rest ih =>
    intro prior
    simp only [rateLimit]
    by_cases hapi : isApiPath q.path = true
    · rw [if_pos hapi]
      by_cases hserve : hits prior q.ip (windowOf q.time) < maxRequests
      · rw [if_pos hserve, servedCount_cons]
        have iht := ih (q :: prior)
        rw [hits_cons] at iht
        by_cases hm : q.ip = ip ∧ windowOf q.time = w
        · rw [if_pos ⟨rfl, hm.1, hapi, hm.2⟩]
          rw [if_pos hm] at iht
          rw [hm.1, hm.2] at hserve
          omega
        · rw [if_neg fun hcon => hm ⟨hcon.2.1, hcon.2.2.2⟩]
          rw [if_neg hm] at iht
          omega
      · rw [if_neg hserve, servedCount_cons]
        rw [if_neg fun hcon => Option.noConfusion hcon.1]
        have iht := ih (q :: prior)
        have hmono : hits prior ip w ≤ hits (q :: prior) ip w := by
          rw [hits_cons]; split <;> omega
        omega
    · rw [if_neg hapi, servedCount_cons]
      rw [if_neg fun hcon => hapi hcon.2.2.1]
      have iht := ih prior
      omega

/-- Every rejection carries exactly the configured message. -/
lemma rateLimit_responses (reqs : List Request) :
    ∀ prior,
      ((rateLimit prior reqs).filter fun p =>
        decide (¬p.2 = none ∧ ¬p.2 = some limiterMessage)) = [] := by
  induction reqs with
  | nil => intro prior; rfl
  | cons q rest ih =>
    intro prior
    simp only [rateLimit]
    by_cases hapi : isApiPath q.path = true
    · rw [if_pos hapi]
      by_cases hs : hits prior q.ip (windowOf q.time) < maxRequests
      · rw [if_pos hs, List.filter_cons, if_neg (by simp)]
        exact ih (q :: prior)
      · rw [if_neg hs, List.filter_cons, if_neg (by simp)]
        exact ih (q :: prior)
    · rw [if_neg hapi, List.filter_cons, if_neg (by simp)]
      exact ih prior

/-- C10 (amended): for every client IP, at most 100 `/api` requests
are served within each fixed 15-minute window of the limiter (the
windows delimited by its periodic counter reset); every rejected
request is answered with the configured try-again message. -/
theorem rateLimit_fixed_window (reqs : List Request) (ip : String) (w : Nat) :
    servedCount (rateLimit [] reqs) ip w ≤ maxRequests ∧
    ((rateLimit [] reqs).filter fun p =>
      decide (¬p.2 = none ∧ ¬p.2 = some limiterMessage)) = [] := by
  constructor
  · have h := servedCount_rateLimit_le ip w reqs []
    have h0 : hits [] ip w = 0 := rfl
    rw [h0] at h
    omega
  · exact rateLimit_responses reqs []

/-- 100 requests just before a window reset and 100 just after it,
all from IP "a", all to `/api/books`. -/
def burstTrace : List Request :=
  List.replicate 100 { time := windowMs - 1, ip := "a", path := "/api/books" } ++
    List.replicate 100 { time := windowMs, ip := "a", path := "/api/books" }

set_option maxRecDepth 100000 in
/-- C10 counterexample: read as "at most 100 requests served in ANY
15-minute window" (a sliding window), the claim is false: the fixed
window limiter serves all 200 requests of `burstTrace`, which lie
inside the single 15-minute span starting at `windowMs - 1`. -/
theorem rateLimit_sliding_window_counterexample :
    servedInSpan (rateLimit [] burstTrace) "a" (windowMs - 1) = 200 ∧
    maxRequests < 200 := by
  constructor
  · decide
  · decide

end BookReview
